import Mathlib

/-!
Verification of the NASLib training harness (`naslib/optimizers/core/evaluator.py`
and `naslib/analysis/evaluate_nasbench_201.py`) against its natural-language
specification.  Metric values (Python floats) are modelled as rationals; disk,
checkpoint and scheduler state are made explicit fields of a trainer state.
-/

namespace NASLib

/-- Modelled from the spec: `naslib.utils.utils.AverageMeter` is imported by
`evaluator.py` but its module is not part of the sources; per the spec the
trainer computes the "batch-size-weighted average of per-batch top-1 accuracy",
so the meter keeps a weighted running sum, a total count, and their quotient. -/
structure AverageMeter where
  sum : ℚ
  cnt : ℚ
  avg : ℚ
  deriving Repr, DecidableEq

/-- `AverageMeter.reset` puts the meter back in the all-zero state. -/
def AverageMeter.reset (_m : AverageMeter) : AverageMeter :=
  { sum := 0, cnt := 0, avg := 0 }

/-- A fresh meter, as produced by the meter constructor. -/
def AverageMeter.init : AverageMeter :=
  { sum := 0, cnt := 0, avg := 0 }

/-- `AverageMeter.update v n` adds value `v` with weight `n` and recomputes
the average as total weighted sum over total count. -/
def AverageMeter.update (m : AverageMeter) (v : ℚ) (n : ℚ) : AverageMeter :=
  let s := m.sum + v * n
  let c := m.cnt + n
  { sum := s, cnt := c, avg := s / c }

/-- The six accuracy/loss meters owned by the `Trainer`
(`evaluator.py` lines 42-47). -/
structure Meters where
  train_top1 : AverageMeter
  train_top5 : AverageMeter
  train_loss : AverageMeter
  val_top1 : AverageMeter
  val_top5 : AverageMeter
  val_loss : AverageMeter
  deriving Repr, DecidableEq

/-- All six meters in their reset state, as after `Trainer.__init__`. -/
def Meters.init : Meters :=
  { train_top1 := AverageMeter.init, train_top5 := AverageMeter.init
    train_loss := AverageMeter.init, val_top1 := AverageMeter.init
    val_top5 := AverageMeter.init, val_loss := AverageMeter.init }

/-- The `errors_dict` built in `Trainer.__init__` (`evaluator.py` lines 51-60):
per-epoch statistic lists plus the parameter count. -/
structure ErrorsDict where
  train_acc : List ℚ
  train_loss : List ℚ
  valid_acc : List ℚ
  valid_loss : List ℚ
  test_acc : List ℚ
  test_loss : List ℚ
  runtime : List ℚ
  params : ℚ
  deriving Repr, DecidableEq

/-- The fresh `errors_dict` of `Trainer.__init__`: all lists empty. -/
def ErrorsDict.init (params : ℚ) : ErrorsDict :=
  { train_acc := [], train_loss := [], valid_acc := [], valid_loss := []
    test_acc := [], test_loss := [], runtime := [], params := params }

/-- The per-batch data visible to the trainer in one iteration of the
step-function branch of the search loop (`evaluator.py` lines 109-126):
top-1/top-5 accuracies and batch sizes for the train and validation batch
(as computed by `utils.accuracy` and `logits.size(0)`), and the two losses
returned by `optimizer.step`. -/
structure StepStats where
  prec1Train : ℚ
  prec5Train : ℚ
  nTrain : ℚ
  prec1Val : ℚ
  prec5Val : ℚ
  nVal : ℚ
  trainLossVal : ℚ
  valLossVal : ℚ
  deriving Repr, DecidableEq

/-- Abstract behaviour of a NAS optimizer as used by `Trainer.search`:
whether it uses a step function, the per-epoch stream of batch statistics
(the zip of the train and valid queues together with `optimizer.step`),
`train_statistics`/`test_statistics` (`None` modelled as `none`),
and the model size reported by `get_model_size`. -/
structure Optimizer where
  using_step_function : Bool
  stepBatches : Nat → List StepStats
  train_statistics : Nat → ℚ × ℚ × ℚ × ℚ
  test_statistics : Nat → Option (ℚ × ℚ)
  model_size : ℚ

/-- The configuration fields of `config` that the trainer reads. -/
structure Config where
  save : String
  seed : Nat
  search_epochs : Nat
  evaluation_epochs : Nat

/-- The full trainer state: the meters, the `errors_dict`, the `scheduler`
attribute (absent until assigned; the value counts `scheduler.step()` calls),
the latest checkpoint iteration in the search directory (what
`periodic_checkpointer.step` saved last, `none` if no checkpoint exists),
the save directory existence flag, the JSON files written so far (path to
content), the trace of `optimizer.new_epoch` calls, and the number of
`log_to_json` calls. -/
structure TrainerState where
  meters : Meters
  errors_dict : ErrorsDict
  scheduler : Option Nat
  checkpoint : Option Nat
  saveDirExists : Bool
  disk : String → Option ErrorsDict
  newEpochCalls : List Nat
  logCalls : Nat

/-- The trainer state right after `Trainer.__init__`: fresh meters, empty
`errors_dict`, no `scheduler` attribute; checkpoint store, save-directory flag
and disk content are whatever the file system already holds. -/
def initTrainerState (opt : Optimizer) (ckpt : Option Nat) (dirExists : Bool)
    (disk : String → Option ErrorsDict) : TrainerState :=
  { meters := Meters.init
    errors_dict := ErrorsDict.init opt.model_size
    scheduler := none
    checkpoint := ckpt
    saveDirExists := dirExists
    disk := disk
    newEpochCalls := []
    logCalls := 0 }

/-- `Trainer._store_accuracies` (`evaluator.py` lines 176-188): updates the
train or val top-1/top-5 meters with the batch accuracy weighted by the batch
size, and raises `ValueError` for any other split.  The returned pair is the
meter state after the call together with the raised exception, if any; on the
error path the meters are returned unchanged because the `raise` happens
before any update. -/
def Trainer._store_accuracies (m : Meters) (prec1 prec5 n : ℚ) (split : String) :
    Meters × Option String :=
  if split = "train" then
    ({ m with train_top1 := m.train_top1.update prec1 n
              train_top5 := m.train_top5.update prec5 n }, none)
  else if split = "val" then
    ({ m with val_top1 := m.val_top1.update prec1 n
              val_top5 := m.val_top5.update prec5 n }, none)
  else
    (m, some "ValueError: Unknown split. Expected either train or val")

/-- One iteration of the inner `for step, (data_train, data_val)` loop of
`Trainer.search` (`evaluator.py` lines 109-126): store train and val
accuracies, then update the two loss meters (with default weight 1). -/
def stepBatch (m : Meters) (b : StepStats) : Meters :=
  let m1 := (Trainer._store_accuracies m b.prec1Train b.prec5Train b.nTrain "train").1
  let m2 := (Trainer._store_accuracies m1 b.prec1Val b.prec5Val b.nVal "val").1
  { m2 with train_loss := m2.train_loss.update b.trainLossVal 1
            val_loss := m2.val_loss.update b.valLossVal 1 }

/-- The path of the per-seed error file written by `Trainer.log_to_json`
(`evaluator.py` lines 194-195). -/
def errorsFilePath (cfg : Config) : String :=
  cfg.save ++ "/errors_" ++ toString cfg.seed ++ ".json"

/-- `Trainer.log_to_json` (`evaluator.py` lines 191-197): creates the save
directory if it does not exist and overwrites `errors_<seed>.json` with the
full current `errors_dict`. -/
def Trainer.log_to_json (cfg : Config) (st : TrainerState) : TrainerState :=
  { st with saveDirExists := true
            disk := Function.update st.disk (errorsFilePath cfg) (some st.errors_dict)
            logCalls := st.logCalls + 1 }

/-- `Trainer._log_and_reset_accuracies` (`evaluator.py` lines 162-173): logs
the epoch averages and then resets all six meters. -/
def Trainer._log_and_reset_accuracies (st : TrainerState) : TrainerState :=
  { st with meters :=
      { train_top1 := st.meters.train_top1.reset
        train_top5 := st.meters.train_top5.reset
        train_loss := st.meters.train_loss.reset
        val_top1 := st.meters.val_top1.reset
        val_top5 := st.meters.val_top5.reset
        val_loss := st.meters.val_loss.reset } }

/-- The period of the `PeriodicCheckpointer` created by
`Trainer._setup_checkpointers` (`evaluator.py` line 83). -/
def periodicCheckpointerPeriod : Nat := 1

/-- `Trainer._setup_checkpointers` (`evaluator.py` lines 70-92), return value
only (creating the checkpointer objects has no effect on the state we track):
with a truthy `resume_from` it calls `resume_or_load` and, if a checkpoint
exists, returns its saved iteration plus one; in every other case it
returns 0. -/
def Trainer._setup_checkpointers (ckpt : Option Nat) (resume_from : String) : Nat :=
  if resume_from ≠ "" then
    match ckpt with
    | some it => it + 1
    | none => 0
  else 0

/-- One iteration of the epoch loop of `Trainer.search`
(`evaluator.py` lines 104-156) for epoch `e` with wall-clock duration `dur`:
`optimizer.new_epoch(e)`; then either the step-function branch (fold the batch
stream through the meters, step the scheduler, write a checkpoint for
iteration `e`, and append the meter averages plus the runtime to
`errors_dict`) or the `train_statistics` branch (append the returned four
statistics plus the runtime, and overwrite the `avg` attributes of the two
top-1 meters); then append the anytime test statistics when truthy, call
`log_to_json`, and reset the meters. -/
def searchEpoch (opt : Optimizer) (cfg : Config) (dur : ℚ) (st : TrainerState)
    (e : Nat) : TrainerState :=
  let st := { st with newEpochCalls := st.newEpochCalls ++ [e] }
  let st :=
    if opt.using_step_function then
      let m := (opt.stepBatches e).foldl stepBatch st.meters
      { st with
          meters := m
          scheduler := st.scheduler.map (· + 1)
          checkpoint := some e
          errors_dict := { st.errors_dict with
            train_acc := st.errors_dict.train_acc ++ [m.train_top1.avg]
            train_loss := st.errors_dict.train_loss ++ [m.train_loss.avg]
            valid_acc := st.errors_dict.valid_acc ++ [m.val_top1.avg]
            valid_loss := st.errors_dict.valid_loss ++ [m.val_loss.avg]
            runtime := st.errors_dict.runtime ++ [dur] } }
    else
      let s := opt.train_statistics e
      { st with
          errors_dict := { st.errors_dict with
            train_acc := st.errors_dict.train_acc ++ [s.1]
            train_loss := st.errors_dict.train_loss ++ [s.2.1]
            valid_acc := st.errors_dict.valid_acc ++ [s.2.2.1]
            valid_loss := st.errors_dict.valid_loss ++ [s.2.2.2]
            runtime := st.errors_dict.runtime ++ [dur] }
          meters := { st.meters with
            train_top1 := { st.meters.train_top1 with avg := s.1 }
            val_top1 := { st.meters.val_top1 with avg := s.2.2.1 } } }
  let st :=
    match opt.test_statistics e with
    | some r =>
        { st with errors_dict := { st.errors_dict with
            test_acc := st.errors_dict.test_acc ++ [r.1]
            test_loss := st.errors_dict.test_loss ++ [r.2] } }
    | none => st
  Trainer._log_and_reset_accuracies (Trainer.log_to_json cfg st)

/-- The epoch loop of `Trainer.search` run for `n` epochs starting at epoch
`s` (`for e in range(start_epoch, self.epochs)` runs it with
`n = self.epochs - start_epoch`); `durs e` is the measured duration of
epoch `e`. -/
def searchLoop (opt : Optimizer) (cfg : Config) (durs : Nat → ℚ) (s n : Nat)
    (st : TrainerState) : TrainerState :=
  (List.range' s n).foldl (fun acc e => searchEpoch opt cfg (durs e) acc e) st

/-- `Trainer.search` (`evaluator.py` lines 95-159).  When the optimizer uses a
step function a cosine-annealing scheduler is created and assigned to
`self.scheduler`; the subsequent call
`self._setup_checkpointers(resume_from, scheduler=self.scheduler)` reads the
`scheduler` attribute unconditionally, which raises `AttributeError` when the
attribute was never assigned.  Otherwise the epoch loop runs from the start
epoch returned by the checkpointer setup up to `config.search.epochs`. -/
def Trainer.search (opt : Optimizer) (cfg : Config) (durs : Nat → ℚ)
    (resume_from : String) (st : TrainerState) : Except String TrainerState :=
  let st :=
    if opt.using_step_function then { st with scheduler := some 0 } else st
  match st.scheduler with
  | none => Except.error "AttributeError: Trainer object has no attribute scheduler"
  | some _ =>
      let start_epoch := Trainer._setup_checkpointers st.checkpoint resume_from
      Except.ok (searchLoop opt cfg durs start_epoch
        (cfg.search_epochs - start_epoch) st)

/-! ### `Trainer.evaluate` -/

/-- A Python string or a one-element tuple of a string, the two shapes the
`search_model` local of `Trainer.evaluate` can take. -/
inductive PyPath where
  | pyStr (s : String)
  | pyTuple1 (s : String)
  deriving Repr, DecidableEq

/-- The value bound to `search_model` after `evaluator.py` lines 209-210:
when the argument is falsy (empty), the assignment
`search_model = os.path.join(self.config.save, "search", "model_final.pth"),`
ends in a comma, so it produces the one-element tuple containing the joined
path rather than the path string. -/
def resolveSearchModel (cfg : Config) (search_model : String) : PyPath :=
  if search_model = "" then
    PyPath.pyTuple1 (cfg.save ++ "/search/model_final.pth")
  else PyPath.pyStr search_model

/-- Observable actions on the final architecture during `Trainer.evaluate`:
weight reset, train/eval mode switches, one optimisation step of the
retraining loop, a benchmark query, and one forward pass on a test batch
(recording whether gradients were enabled for it). -/
inductive ArchEvent where
  | resetWeights
  | trainMode
  | evalMode
  | trainStep (e i : Nat)
  | queryBench
  | inference (i : Nat) (gradEnabled : Bool)
  deriving Repr, DecidableEq

/-- A test batch as the evaluation loop sees it: the top-1/top-5 accuracy of
the forward pass (`utils.accuracy`) and the batch size `input_test.size(0)`. -/
structure EvalBatch where
  prec1 : ℚ
  prec5 : ℚ
  n : ℚ
  deriving Repr, DecidableEq

/-- Result of `Trainer.evaluate`: the value passed to the checkpointer setup,
the ordered trace of architecture events, and the final test meters (absent on
the queryable branch, which never measures). -/
structure EvalRun where
  resumeArg : PyPath
  events : List ArchEvent
  testTop1 : Option AverageMeter
  testTop5 : Option AverageMeter

/-- The retraining loop events of `Trainer.evaluate` (lines 253-279): for each
epoch of `range(start_epoch, epochs)`, one `trainStep` per train batch. -/
def retrainEvents (start_epoch epochs trainBatches : Nat) : List ArchEvent :=
  (List.range' start_epoch (epochs - start_epoch)).flatMap
    (fun e => (List.range trainBatches).map (fun i => ArchEvent.trainStep e i))

/-- The final test measurement loop of `Trainer.evaluate` (lines 281-303):
under `torch.no_grad()`, fold every test batch into fresh top-1/top-5 meters
weighted by the batch size. -/
def measureTest (testQueue : List EvalBatch) : AverageMeter × AverageMeter :=
  testQueue.foldl
    (fun p b => (p.1.update b.prec1 b.n, p.2.update b.prec5 b.n))
    (AverageMeter.init, AverageMeter.init)

/-- `Trainer.evaluate` (`evaluator.py` lines 200-303), abstracted to the
architecture-event trace and the test meters.  `queryable` is
`best_arch.QUERYABLE`; `start_epoch` is what `_setup_checkpointers` returns
for the evaluation checkpoint; `trainBatches` is the length of the train
queue.  On the queryable branch the benchmark is queried and nothing is
trained or measured; otherwise, with `retrain=True`, the weights are reset
first, the architecture is put in train mode and retrained, and in all
non-queryable cases the architecture is put in eval mode and test accuracy is
measured on every batch of the test queue with gradients disabled. -/
def Trainer.evaluate (cfg : Config) (retrain : Bool) (search_model : String)
    (queryable : Bool) (start_epoch trainBatches : Nat)
    (testQueue : List EvalBatch) : EvalRun :=
  let resumeArg := resolveSearchModel cfg search_model
  if queryable then
    { resumeArg := resumeArg, events := [ArchEvent.queryBench]
      testTop1 := none, testTop5 := none }
  else
    let trainTrace :=
      if retrain then
        ArchEvent.resetWeights :: ArchEvent.trainMode ::
          retrainEvents start_epoch cfg.evaluation_epochs trainBatches
      else []
    let meters := measureTest testQueue
    { resumeArg := resumeArg
      events := trainTrace ++ ArchEvent.evalMode ::
        (List.range testQueue.length).map (fun i => ArchEvent.inference i false)
      testTop1 := some meters.1
      testTop5 := some meters.2 }

/-! ### The analysis script `evaluate_nasbench_201.py` -/

/-- One run loaded from an `errors_*.json` file as the analysis script uses
it: the `arch_eval` list, each entry a nested benchmark table indexed by
dataset and then metric, and the `valid_acc` list. -/
structure NbRun where
  arch_eval : List (String → String → ℚ)
  valid_acc : List ℚ

/-- `get_nb_eval` (`evaluate_nasbench_201.py` lines 37-44): one inner list per
run, in run order, collecting `eval[dataset][metric]` over the run's
`arch_eval` entries in order. -/
def get_nb_eval (optimizer_runs : List NbRun) (dataset metric : String) :
    List (List ℚ) :=
  optimizer_runs.map (fun run => run.arch_eval.map (fun ev => ev dataset metric))

/-- The `nb_test_error` array of `analyze` (lines 51-52):
`100 - get_nb_eval(optimizer_runs, dataset, 'test_accuracy')`, elementwise. -/
def nb_test_error (optimizer_runs : List NbRun) (dataset : String) :
    List (List ℚ) :=
  (get_nb_eval optimizer_runs dataset "test_accuracy").map
    (fun run => run.map (fun a => 100 - a))

/-- `np.mean(x, axis=0)[j]`: the mean over the runs of the entry at epoch `j`
(rows assumed rectangular, as `np.array` requires). -/
def npMeanAxis0 (xss : List (List ℚ)) (j : Nat) : ℚ :=
  (xss.map (fun xs => xs.getD j 0)).sum / (xss.length : ℚ)

/-- `np.std(x, axis=0)[j]` squared: the mean over the runs of the squared
deviation from the column mean (numpy's population variance). -/
def npVarAxis0 (xss : List (List ℚ)) (j : Nat) : ℚ :=
  (xss.map (fun xs => (xs.getD j 0 - npMeanAxis0 xss j) ^ 2)).sum /
    (xss.length : ℚ)

/-- `np.std(x, axis=0)[j]`: the square root of the population variance. -/
noncomputable def npStdAxis0 (xss : List (List ℚ)) (j : Nat) : ℝ :=
  Real.sqrt (npVarAxis0 xss j : ℚ)

/-- The lower edge `mean - std` of the band drawn by
`ax_left.fill_between` (line 59) at epoch `j`. -/
noncomputable def plotBandLow (optimizer_runs : List NbRun) (dataset : String)
    (j : Nat) : ℝ :=
  (npMeanAxis0 (nb_test_error optimizer_runs dataset) j : ℚ) -
    npStdAxis0 (nb_test_error optimizer_runs dataset) j

/-- The upper edge `mean + std` of the band drawn by
`ax_left.fill_between` (line 59) at epoch `j`. -/
noncomputable def plotBandHigh (optimizer_runs : List NbRun) (dataset : String)
    (j : Nat) : ℝ :=
  (npMeanAxis0 (nb_test_error optimizer_runs dataset) j : ℚ) +
    npStdAxis0 (nb_test_error optimizer_runs dataset) j

/-! ### Per-epoch facts about the search loop body -/

theorem searchEpoch_newEpochCalls (opt : Optimizer) (cfg : Config) (dur : ℚ)
    (st : TrainerState) (e : Nat) :
    (searchEpoch opt cfg dur st e).newEpochCalls = st.newEpochCalls ++ [e] := by
  cases hs : opt.using_step_function <;> cases ht : opt.test_statistics e <;>
    simp [searchEpoch, Trainer.log_to_json, Trainer._log_and_reset_accuracies, hs, ht]

theorem searchEpoch_train_acc_length (opt : Optimizer) (cfg : Config) (dur : ℚ)
    (st : TrainerState) (e : Nat) :
    (searchEpoch opt cfg dur st e).errors_dict.train_acc.length =
      st.errors_dict.train_acc.length + 1 := by
  cases hs : opt.using_step_function <;> cases ht : opt.test_statistics e <;>
    simp [searchEpoch, Trainer.log_to_json, Trainer._log_and_reset_accuracies, hs, ht]

theorem searchEpoch_train_loss_length (opt : Optimizer) (cfg : Config) (dur : ℚ)
    (st : TrainerState) (e : Nat) :
    (searchEpoch opt cfg dur st e).errors_dict.train_loss.length =
      st.errors_dict.train_loss.length + 1 := by
  cases hs : opt.using_step_function <;> cases ht : opt.test_statistics e <;>
    simp [searchEpoch, Trainer.log_to_json, Trainer._log_and_reset_accuracies, hs, ht]

theorem searchEpoch_valid_acc_length (opt : Optimizer) (cfg : Config) (dur : ℚ)
    (st : TrainerState) (e : Nat) :
    (searchEpoch opt cfg dur st e).errors_dict.valid_acc.length =
      st.errors_dict.valid_acc.length + 1 := by
  cases hs : opt.using_step_function <;> cases ht : opt.test_statistics e <;>
    simp [searchEpoch, Trainer.log_to_json, Trainer._log_and_reset_accuracies, hs, ht]

theorem searchEpoch_valid_loss_length (opt : Optimizer) (cfg : Config) (dur : ℚ)
    (st : TrainerState) (e : Nat) :
    (searchEpoch opt cfg dur st e).errors_dict.valid_loss.length =
      st.errors_dict.valid_loss.length + 1 := by
  cases hs : opt.using_step_function <;> cases ht : opt.test_statistics e <;>
    simp [searchEpoch, Trainer.log_to_json, Trainer._log_and_reset_accuracies, hs, ht]

theorem searchEpoch_runtime_length (opt : Optimizer) (cfg : Config) (dur : ℚ)
    (st : TrainerState) (e : Nat) :
    (searchEpoch opt cfg dur st e).errors_dict.runtime.length =
      st.errors_dict.runtime.length + 1 := by
  cases hs : opt.using_step_function <;> cases ht : opt.test_statistics e <;>
    simp [searchEpoch, Trainer.log_to_json, Trainer._log_and_reset_accuracies, hs, ht]

theorem searchEpoch_test_acc_length (opt : Optimizer) (cfg : Config) (dur : ℚ)
    (st : TrainerState) (e : Nat) :
    (searchEpoch opt cfg dur st e).errors_dict.test_acc.length =
      st.errors_dict.test_acc.length +
        (if (opt.test_statistics e).isSome then 1 else 0) := by
  cases hs : opt.using_step_function <;> cases ht : opt.test_statistics e <;>
    simp [searchEpoch, Trainer.log_to_json, Trainer._log_and_reset_accuracies, hs, ht]

theorem searchEpoch_test_loss_length (opt : Optimizer) (cfg : Config) (dur : ℚ)
    (st : TrainerState) (e : Nat) :
    (searchEpoch opt cfg dur st e).errors_dict.test_loss.length =
      st.errors_dict.test_loss.length +
        (if (opt.test_statistics e).isSome then 1 else 0) := by
  cases hs : opt.using_step_function <;> cases ht : opt.test_statistics e <;>
    simp [searchEpoch, Trainer.log_to_json, Trainer._log_and_reset_accuracies, hs, ht]

theorem searchEpoch_meters (opt : Optimizer) (cfg : Config) (dur : ℚ)
    (st : TrainerState) (e : Nat) :
    (searchEpoch opt cfg dur st e).meters = Meters.init := by
  cases hs : opt.using_step_function <;> cases ht : opt.test_statistics e <;>
    simp [searchEpoch, Trainer.log_to_json, Trainer._log_and_reset_accuracies,
      AverageMeter.reset, Meters.init, AverageMeter.init, hs, ht]

theorem searchEpoch_saveDirExists (opt : Optimizer) (cfg : Config) (dur : ℚ)
    (st : TrainerState) (e : Nat) :
    (searchEpoch opt cfg dur st e).saveDirExists = true := by
  cases hs : opt.using_step_function <;> cases ht : opt.test_statistics e <;>
    simp [searchEpoch, Trainer.log_to_json, Trainer._log_and_reset_accuracies, hs, ht]

theorem searchEpoch_logCalls (opt : Optimizer) (cfg : Config) (dur : ℚ)
    (st : TrainerState) (e : Nat) :
    (searchEpoch opt cfg dur st e).logCalls = st.logCalls + 1 := by
  cases hs : opt.using_step_function <;> cases ht : opt.test_statistics e <;>
    simp [searchEpoch, Trainer.log_to_json, Trainer._log_and_reset_accuracies, hs, ht]

theorem searchEpoch_disk (opt : Optimizer) (cfg : Config) (dur : ℚ)
    (st : TrainerState) (e : Nat) :
    (searchEpoch opt cfg dur st e).disk (errorsFilePath cfg) =
      some (searchEpoch opt cfg dur st e).errors_dict := by
  cases hs : opt.using_step_function <;> cases ht : opt.test_statistics e <;>
    simp [searchEpoch, Trainer.log_to_json, Trainer._log_and_reset_accuracies, hs, ht]

theorem searchEpoch_checkpoint (opt : Optimizer) (cfg : Config) (dur : ℚ)
    (st : TrainerState) (e : Nat) :
    (searchEpoch opt cfg dur st e).checkpoint =
      if opt.using_step_function then some e else st.checkpoint := by
  cases hs : opt.using_step_function <;> cases ht : opt.test_statistics e <;>
    simp [searchEpoch, Trainer.log_to_json, Trainer._log_and_reset_accuracies, hs, ht]

theorem searchEpoch_train_acc_step (opt : Optimizer) (cfg : Config) (dur : ℚ)
    (st : TrainerState) (e : Nat) (hs : opt.using_step_function = true) :
    (searchEpoch opt cfg dur st e).errors_dict.train_acc =
      st.errors_dict.train_acc ++
        [((opt.stepBatches e).foldl stepBatch st.meters).train_top1.avg] := by
  cases ht : opt.test_statistics e <;>
    simp [searchEpoch, Trainer.log_to_json, Trainer._log_and_reset_accuracies, hs, ht]

theorem searchEpoch_train_loss_step (opt : Optimizer) (cfg : Config) (dur : ℚ)
    (st : TrainerState) (e : Nat) (hs : opt.using_step_function = true) :
    (searchEpoch opt cfg dur st e).errors_dict.train_loss =
      st.errors_dict.train_loss ++
        [((opt.stepBatches e).foldl stepBatch st.meters).train_loss.avg] := by
  cases ht : opt.test_statistics e <;>
    simp [searchEpoch, Trainer.log_to_json, Trainer._log_and_reset_accuracies, hs, ht]

theorem searchEpoch_valid_acc_step (opt : Optimizer) (cfg : Config) (dur : ℚ)
    (st : TrainerState) (e : Nat) (hs : opt.using_step_function = true) :
    (searchEpoch opt cfg dur st e).errors_dict.valid_acc =
      st.errors_dict.valid_acc ++
        [((opt.stepBatches e).foldl stepBatch st.meters).val_top1.avg] := by
  cases ht : opt.test_statistics e <;>
    simp [searchEpoch, Trainer.log_to_json, Trainer._log_and_reset_accuracies, hs, ht]

theorem searchEpoch_valid_loss_step (opt : Optimizer) (cfg : Config) (dur : ℚ)
    (st : TrainerState) (e : Nat) (hs : opt.using_step_function = true) :
    (searchEpoch opt cfg dur st e).errors_dict.valid_loss =
      st.errors_dict.valid_loss ++
        [((opt.stepBatches e).foldl stepBatch st.meters).val_loss.avg] := by
  cases ht : opt.test_statistics e <;>
    simp [searchEpoch, Trainer.log_to_json, Trainer._log_and_reset_accuracies, hs, ht]

/-! ### Facts about the whole epoch loop -/

theorem searchLoop_zero (opt : Optimizer) (cfg : Config) (durs : Nat → ℚ)
    (s : Nat) (st : TrainerState) : searchLoop opt cfg durs s 0 st = st := rfl

theorem searchLoop_concat (opt : Optimizer) (cfg : Config) (durs : Nat → ℚ)
    (s n : Nat) (st : TrainerState) :
    searchLoop opt cfg durs s (n + 1) st =
      searchEpoch opt cfg (durs (s + n)) (searchLoop opt cfg durs s n st)
        (s + n) := by
  have h : List.range' s (n + 1) = List.range' s n ++ [s + n] := by
    simpa using @List.range'_concat 1 s n
  simp [searchLoop, h]

theorem searchLoop_newEpochCalls (opt : Optimizer) (cfg : Config)
    (durs : Nat → ℚ) (s n : Nat) (st : TrainerState) :
    (searchLoop opt cfg durs s n st).newEpochCalls =
      st.newEpochCalls ++ List.range' s n := by
  induction n with
  | zero => simp [searchLoop_zero]
  | succ n ih =>
      have h : List.range' s (n + 1) = List.range' s n ++ [s + n] := by
        simpa using @List.range'_concat 1 s n
      rw [searchLoop_concat, searchEpoch_newEpochCalls, ih, h, List.append_assoc]

theorem searchLoop_train_acc_length (opt : Optimizer) (cfg : Config)
    (durs : Nat → ℚ) (s n : Nat) (st : TrainerState) :
    (searchLoop opt cfg durs s n st).errors_dict.train_acc.length =
      st.errors_dict.train_acc.length + n := by
  induction n with
  | zero => simp [searchLoop_zero]
  | succ n ih => rw [searchLoop_concat, searchEpoch_train_acc_length, ih]; omega

theorem searchLoop_train_loss_length (opt : Optimizer) (cfg : Config)
    (durs : Nat → ℚ) (s n : Nat) (st : TrainerState) :
    (searchLoop opt cfg durs s n st).errors_dict.train_loss.length =
      st.errors_dict.train_loss.length + n := by
  induction n with
  | zero => simp [searchLoop_zero]
  | succ n ih => rw [searchLoop_concat, searchEpoch_train_loss_length, ih]; omega

theorem searchLoop_valid_acc_length (opt : Optimizer) (cfg : Config)
    (durs : Nat → ℚ) (s n : Nat) (st : TrainerState) :
    (searchLoop opt cfg durs s n st).errors_dict.valid_acc.length =
      st.errors_dict.valid_acc.length + n := by
  induction n with
  | zero => simp [searchLoop_zero]
  | succ n ih => rw [searchLoop_concat, searchEpoch_valid_acc_length, ih]; omega

theorem searchLoop_valid_loss_length (opt : Optimizer) (cfg : Config)
    (durs : Nat → ℚ) (s n : Nat) (st : TrainerState) :
    (searchLoop opt cfg durs s n st).errors_dict.valid_loss.length =
      st.errors_dict.valid_loss.length + n := by
  induction n with
  | zero => simp [searchLoop_zero]
  | succ n ih => rw [searchLoop_concat, searchEpoch_valid_loss_length, ih]; omega

theorem searchLoop_runtime_length (opt : Optimizer) (cfg : Config)
    (durs : Nat → ℚ) (s n : Nat) (st : TrainerState) :
    (searchLoop opt cfg durs s n st).errors_dict.runtime.length =
      st.errors_dict.runtime.length + n := by
  induction n with
  | zero => simp [searchLoop_zero]
  | succ n ih => rw [searchLoop_concat, searchEpoch_runtime_length, ih]; omega

theorem searchLoop_test_acc_length (opt : Optimizer) (cfg : Config)
    (durs : Nat → ℚ) (s n : Nat) (st : TrainerState) :
    (searchLoop opt cfg durs s n st).errors_dict.test_acc.length =
      st.errors_dict.test_acc.length +
        (List.range' s n).countP (fun e => (opt.test_statistics e).isSome) := by
  induction n with
  | zero => simp [searchLoop_zero]
  | succ n ih =>
      have h : List.range' s (n + 1) = List.range' s n ++ [s + n] := by
        simpa using @List.range'_concat 1 s n
      rw [searchLoop_concat, searchEpoch_test_acc_length, ih, h,
        List.countP_append]
      simp [List.countP_cons, Nat.add_assoc]

theorem searchLoop_test_loss_length (opt : Optimizer) (cfg : Config)
    (durs : Nat → ℚ) (s n : Nat) (st : TrainerState) :
    (searchLoop opt cfg durs s n st).errors_dict.test_loss.length =
      st.errors_dict.test_loss.length +
        (List.range' s n).countP (fun e => (opt.test_statistics e).isSome) := by
  induction n with
  | zero => simp [searchLoop_zero]
  | succ n ih =>
      have h : List.range' s (n + 1) = List.range' s n ++ [s + n] := by
        simpa using @List.range'_concat 1 s n
      rw [searchLoop_concat, searchEpoch_test_loss_length, ih, h,
        List.countP_append]
      simp [List.countP_cons, Nat.add_assoc]

theorem searchLoop_logCalls (opt : Optimizer) (cfg : Config)
    (durs : Nat → ℚ) (s n : Nat) (st : TrainerState) :
    (searchLoop opt cfg durs s n st).logCalls = st.logCalls + n := by
  induction n with
  | zero => simp [searchLoop_zero]
  | succ n ih => rw [searchLoop_concat, searchEpoch_logCalls, ih]; omega

theorem searchLoop_meters (opt : Optimizer) (cfg : Config)
    (durs : Nat → ℚ) (s n : Nat) (st : TrainerState) (hm : st.meters = Meters.init) :
    (searchLoop opt cfg durs s n st).meters = Meters.init := by
  cases n with
  | zero => simpa [searchLoop_zero] using hm
  | succ n => rw [searchLoop_concat, searchEpoch_meters]

theorem searchLoop_saveDirExists (opt : Optimizer) (cfg : Config)
    (durs : Nat → ℚ) (s n : Nat) (st : TrainerState) (hn : 0 < n) :
    (searchLoop opt cfg durs s n st).saveDirExists = true := by
  cases n with
  | zero => exact absurd hn (by simp)
  | succ n => rw [searchLoop_concat, searchEpoch_saveDirExists]

theorem searchLoop_disk (opt : Optimizer) (cfg : Config)
    (durs : Nat → ℚ) (s n : Nat) (st : TrainerState) (hn : 0 < n) :
    (searchLoop opt cfg durs s n st).disk (errorsFilePath cfg) =
      some (searchLoop opt cfg durs s n st).errors_dict := by
  cases n with
  | zero => exact absurd hn (by simp)
  | succ n => rw [searchLoop_concat, searchEpoch_disk]

theorem searchLoop_checkpoint (opt : Optimizer) (cfg : Config)
    (durs : Nat → ℚ) (s n : Nat) (st : TrainerState)
    (hs : opt.using_step_function = true) :
    (searchLoop opt cfg durs s (n + 1) st).checkpoint = some (s + n) := by
  rw [searchLoop_concat, searchEpoch_checkpoint, hs]
  simp

theorem search_eq_ok (opt : Optimizer) (cfg : Config) (durs : Nat → ℚ)
    (resume_from : String) (ckpt : Option Nat) (dirE : Bool)
    (disk : String → Option ErrorsDict) (hs : opt.using_step_function = true) :
    Trainer.search opt cfg durs resume_from (initTrainerState opt ckpt dirE disk) =
      Except.ok (searchLoop opt cfg durs
        (Trainer._setup_checkpointers ckpt resume_from)
        (cfg.search_epochs - Trainer._setup_checkpointers ckpt resume_from)
        { initTrainerState opt ckpt dirE disk with scheduler := some 0 }) := by
  simp [Trainer.search, hs, initTrainerState]

/-! ### The meter fold of the test measurement loop -/

/-- Folding a batch list into one meter, selecting value `sel` and weight `wt`
per batch. -/
def meterFold (sel wt : EvalBatch → ℚ) (l : List EvalBatch) (m : AverageMeter) :
    AverageMeter :=
  l.foldl (fun a b => a.update (sel b) (wt b)) m

theorem measureTest_eq_meterFold (l : List EvalBatch) :
    measureTest l =
      (meterFold EvalBatch.prec1 EvalBatch.n l AverageMeter.init,
       meterFold EvalBatch.prec5 EvalBatch.n l AverageMeter.init) := by
  have aux : ∀ (l : List EvalBatch) (p : AverageMeter × AverageMeter),
      l.foldl (fun p b => (p.1.update b.prec1 b.n, p.2.update b.prec5 b.n)) p =
        (meterFold EvalBatch.prec1 EvalBatch.n l p.1,
         meterFold EvalBatch.prec5 EvalBatch.n l p.2) := by
    intro l
    induction l with
    | nil => intro p; simp [meterFold]
    | cons x xs ih =>
        intro p
        rw [List.foldl_cons]
        rw [ih]
        simp [meterFold]
  exact aux l _

theorem meterFold_sum (sel wt : EvalBatch → ℚ) (l : List EvalBatch)
    (m : AverageMeter) :
    (meterFold sel wt l m).sum = m.sum + (l.map (fun b => sel b * wt b)).sum := by
  induction l generalizing m with
  | nil => simp [meterFold]
  | cons x xs ih =>
      rw [meterFold, List.foldl_cons, ← meterFold, ih]
      simp [AverageMeter.update]
      ring

theorem meterFold_cnt (sel wt : EvalBatch → ℚ) (l : List EvalBatch)
    (m : AverageMeter) :
    (meterFold sel wt l m).cnt = m.cnt + (l.map wt).sum := by
  induction l generalizing m with
  | nil => simp [meterFold]
  | cons x xs ih =>
      rw [meterFold, List.foldl_cons, ← meterFold, ih]
      simp [AverageMeter.update]
      ring

theorem meterFold_avg (sel wt : EvalBatch → ℚ) :
    ∀ (l : List EvalBatch) (m : AverageMeter), l ≠ [] →
      (meterFold sel wt l m).avg =
        (meterFold sel wt l m).sum / (meterFold sel wt l m).cnt
  | [], _, h => absurd rfl h
  | [x], m, _ => by simp [meterFold, AverageMeter.update]
  | x :: y :: ys, m, _ => by
      have h := meterFold_avg sel wt (y :: ys) (m.update (sel x) (wt x)) (by simp)
      simpa [meterFold] using h

/-- From a fresh meter, the final average is the weight-weighted mean of the
selected values (with the `0 / 0 = 0` convention of `ℚ` when the list is
empty, matching the meter's initial `avg = 0`). -/
theorem meterFold_init_avg (sel wt : EvalBatch → ℚ) (l : List EvalBatch) :
    (meterFold sel wt l AverageMeter.init).avg =
      (l.map (fun b => sel b * wt b)).sum / (l.map wt).sum := by
  cases l with
  | nil => simp [meterFold, AverageMeter.init]
  | cons x xs =>
      rw [meterFold_avg sel wt (x :: xs) AverageMeter.init (by simp),
        meterFold_sum, meterFold_cnt]
      simp [AverageMeter.init]

/-! ### Facts about the analysis script -/

theorem get_nb_eval_length (runs : List NbRun) (ds metric : String) :
    (get_nb_eval runs ds metric).length = runs.length := by
  simp [get_nb_eval]

theorem get_nb_eval_getD (runs : List NbRun) (ds metric : String) (i : Nat)
    (hi : i < runs.length) :
    (get_nb_eval runs ds metric).getD i [] =
      (runs.get ⟨i, hi⟩).arch_eval.map (fun ev => ev ds metric) := by
  simp [get_nb_eval, List.getD_eq_getElem?_getD, List.getElem?_map,
    List.getElem?_eq_getElem hi]

theorem get_nb_eval_entry (runs : List NbRun) (ds metric : String) (i j : Nat)
    (hi : i < runs.length)
    (hj : j < (runs.get ⟨i, hi⟩).arch_eval.length) :
    ((get_nb_eval runs ds metric).getD i []).getD j 0 =
      ((runs.get ⟨i, hi⟩).arch_eval.get ⟨j, hj⟩) ds metric := by
  rw [get_nb_eval_getD runs ds metric i hi]
  simp only [List.getD_eq_getElem?_getD, List.getElem?_map]
  rw [List.getElem?_eq_getElem (by simpa using hj)]
  simp [List.get_eq_getElem]

theorem nb_test_error_getD (runs : List NbRun) (ds : String) (i : Nat)
    (hi : i < runs.length) :
    (nb_test_error runs ds).getD i [] =
      ((get_nb_eval runs ds "test_accuracy").getD i []).map
        (fun a => 100 - a) := by
  have hi' : i < (get_nb_eval runs ds "test_accuracy").length := by
    simpa [get_nb_eval_length] using hi
  simp [nb_test_error, List.getD_eq_getElem?_getD, List.getElem?_map,
    List.getElem?_eq_getElem hi']

theorem npVarAxis0_nonneg (xss : List (List ℚ)) (j : Nat) :
    0 ≤ npVarAxis0 xss j := by
  unfold npVarAxis0
  apply div_nonneg
  · apply List.sum_nonneg
    intro x hx
    simp only [List.mem_map] at hx
    obtain ⟨xs, _, rfl⟩ := hx
    positivity
  · positivity

theorem npStdAxis0_sq (xss : List (List ℚ)) (j : Nat) :
    npStdAxis0 xss j ^ 2 = ((npVarAxis0 xss j : ℚ) : ℝ) := by
  rw [npStdAxis0]
  exact Real.sq_sqrt (by exact_mod_cast npVarAxis0_nonneg xss j)

theorem npStdAxis0_nonneg (xss : List (List ℚ)) (j : Nat) :
    0 ≤ npStdAxis0 xss j :=
  Real.sqrt_nonneg _

/-! ### Claim theorems -/

/-- C1: for every configuration with `search.epochs = N` and every start epoch
returned by the checkpoint setup, `Trainer.search` (with a step-function
optimizer, the only kind whose run reaches the epoch loop) runs the loop over
exactly the epochs `s, s+1, …, N-1`, calling `optimizer.new_epoch(e)` once per
epoch in increasing order, and appends exactly one entry per completed epoch
to each of `train_acc`, `train_loss`, `valid_acc`, `valid_loss` and
`runtime`. -/
theorem C1_search_epoch_coverage (opt : Optimizer) (cfg : Config)
    (durs : Nat → ℚ) (resume_from : String) (ckpt : Option Nat) (dirE : Bool)
    (disk : String → Option ErrorsDict)
    (hs : opt.using_step_function = true) :
    ∃ stf, Trainer.search opt cfg durs resume_from
        (initTrainerState opt ckpt dirE disk) = Except.ok stf ∧
      stf.newEpochCalls = List.range'
        (Trainer._setup_checkpointers ckpt resume_from)
        (cfg.search_epochs - Trainer._setup_checkpointers ckpt resume_from) ∧
      stf.errors_dict.train_acc.length =
        cfg.search_epochs - Trainer._setup_checkpointers ckpt resume_from ∧
      stf.errors_dict.train_loss.length =
        cfg.search_epochs - Trainer._setup_checkpointers ckpt resume_from ∧
      stf.errors_dict.valid_acc.length =
        cfg.search_epochs - Trainer._setup_checkpointers ckpt resume_from ∧
      stf.errors_dict.valid_loss.length =
        cfg.search_epochs - Trainer._setup_checkpointers ckpt resume_from ∧
      stf.errors_dict.runtime.length =
        cfg.search_epochs - Trainer._setup_checkpointers ckpt resume_from := by
  refine ⟨_, search_eq_ok opt cfg durs resume_from ckpt dirE disk hs,
    ?_, ?_, ?_, ?_, ?_, ?_⟩
  · rw [searchLoop_newEpochCalls]; simp [initTrainerState]
  · rw [searchLoop_train_acc_length]; simp [initTrainerState, ErrorsDict.init]
  · rw [searchLoop_train_loss_length]; simp [initTrainerState, ErrorsDict.init]
  · rw [searchLoop_valid_acc_length]; simp [initTrainerState, ErrorsDict.init]
  · rw [searchLoop_valid_loss_length]; simp [initTrainerState, ErrorsDict.init]
  · rw [searchLoop_runtime_length]; simp [initTrainerState, ErrorsDict.init]

/-- C2: after every completed search epoch the accumulated statistics are on
disk: `log_to_json` has run once per completed epoch, the save directory
exists, and `errors_<seed>.json` holds the full current `errors_dict`, whose
five per-epoch lists have exactly `k` entries after `k` completed epochs. -/
theorem C2_log_to_json_per_epoch (opt : Optimizer) (cfg : Config)
    (durs : Nat → ℚ) (ckpt : Option Nat) (dirE : Bool)
    (disk : String → Option ErrorsDict) (s k : Nat) (hk : 0 < k) :
    (searchLoop opt cfg durs s k (initTrainerState opt ckpt dirE disk)).logCalls
        = k ∧
    (searchLoop opt cfg durs s k
        (initTrainerState opt ckpt dirE disk)).saveDirExists = true ∧
    (searchLoop opt cfg durs s k (initTrainerState opt ckpt dirE disk)).disk
        (errorsFilePath cfg) =
      some (searchLoop opt cfg durs s k
        (initTrainerState opt ckpt dirE disk)).errors_dict ∧
    (searchLoop opt cfg durs s k
        (initTrainerState opt ckpt dirE disk)).errors_dict.train_acc.length = k ∧
    (searchLoop opt cfg durs s k
        (initTrainerState opt ckpt dirE disk)).errors_dict.train_loss.length = k ∧
    (searchLoop opt cfg durs s k
        (initTrainerState opt ckpt dirE disk)).errors_dict.valid_acc.length = k ∧
    (searchLoop opt cfg durs s k
        (initTrainerState opt ckpt dirE disk)).errors_dict.valid_loss.length = k ∧
    (searchLoop opt cfg durs s k
        (initTrainerState opt ckpt dirE disk)).errors_dict.runtime.length = k := by
  refine ⟨?_, searchLoop_saveDirExists _ _ _ _ _ _ hk,
    searchLoop_disk _ _ _ _ _ _ hk, ?_, ?_, ?_, ?_, ?_⟩
  · rw [searchLoop_logCalls]; simp [initTrainerState]
  · rw [searchLoop_train_acc_length]; simp [initTrainerState, ErrorsDict.init]
  · rw [searchLoop_train_loss_length]; simp [initTrainerState, ErrorsDict.init]
  · rw [searchLoop_valid_acc_length]; simp [initTrainerState, ErrorsDict.init]
  · rw [searchLoop_valid_loss_length]; simp [initTrainerState, ErrorsDict.init]
  · rw [searchLoop_runtime_length]; simp [initTrainerState, ErrorsDict.init]

/-- C9: invariant of the search loop — after any `k` completed epochs the
lists `train_acc`, `train_loss`, `valid_acc`, `valid_loss` and `runtime` all
have length `k`, while `test_acc` and `test_loss` always have equal length,
namely the number of elapsed epochs with truthy `test_statistics`, which is at
most `k`. -/
theorem C9_errors_dict_invariant (opt : Optimizer) (cfg : Config)
    (durs : Nat → ℚ) (ckpt : Option Nat) (dirE : Bool)
    (disk : String → Option ErrorsDict) (s k : Nat) :
    (searchLoop opt cfg durs s k
        (initTrainerState opt ckpt dirE disk)).errors_dict.train_acc.length = k ∧
    (searchLoop opt cfg durs s k
        (initTrainerState opt ckpt dirE disk)).errors_dict.train_loss.length = k ∧
    (searchLoop opt cfg durs s k
        (initTrainerState opt ckpt dirE disk)).errors_dict.valid_acc.length = k ∧
    (searchLoop opt cfg durs s k
        (initTrainerState opt ckpt dirE disk)).errors_dict.valid_loss.length = k ∧
    (searchLoop opt cfg durs s k
        (initTrainerState opt ckpt dirE disk)).errors_dict.runtime.length = k ∧
    (searchLoop opt cfg durs s k
        (initTrainerState opt ckpt dirE disk)).errors_dict.test_acc.length =
      (searchLoop opt cfg durs s k
        (initTrainerState opt ckpt dirE disk)).errors_dict.test_loss.length ∧
    (searchLoop opt cfg durs s k
        (initTrainerState opt ckpt dirE disk)).errors_dict.test_acc.length =
      (List.range' s k).countP (fun e => (opt.test_statistics e).isSome) ∧
    (searchLoop opt cfg durs s k
        (initTrainerState opt ckpt dirE disk)).errors_dict.test_acc.length
      ≤ k := by
  have hta : (searchLoop opt cfg durs s k
      (initTrainerState opt ckpt dirE disk)).errors_dict.test_acc.length =
      (List.range' s k).countP (fun e => (opt.test_statistics e).isSome) := by
    rw [searchLoop_test_acc_length]; simp [initTrainerState, ErrorsDict.init]
  have htl : (searchLoop opt cfg durs s k
      (initTrainerState opt ckpt dirE disk)).errors_dict.test_loss.length =
      (List.range' s k).countP (fun e => (opt.test_statistics e).isSome) := by
    rw [searchLoop_test_loss_length]; simp [initTrainerState, ErrorsDict.init]
  refine ⟨?_, ?_, ?_, ?_, ?_, hta.trans htl.symm, hta, ?_⟩
  · rw [searchLoop_train_acc_length]; simp [initTrainerState, ErrorsDict.init]
  · rw [searchLoop_train_loss_length]; simp [initTrainerState, ErrorsDict.init]
  · rw [searchLoop_valid_acc_length]; simp [initTrainerState, ErrorsDict.init]
  · rw [searchLoop_valid_loss_length]; simp [initTrainerState, ErrorsDict.init]
  · rw [searchLoop_runtime_length]; simp [initTrainerState, ErrorsDict.init]
  · rw [hta]
    calc (List.range' s k).countP (fun e => (opt.test_statistics e).isSome)
        ≤ (List.range' s k).length := List.countP_le_length _
      _ = k := by simp

/-- C10: epoch-locality of metric aggregation — at the start of every epoch of
the search loop all six meters are in the reset state (they are reset at the
end of each epoch after the averages were appended), so each appended
per-epoch average is computed by folding exactly that epoch's batches into
freshly reset meters. -/
theorem C10_meters_epoch_local (opt : Optimizer) (cfg : Config)
    (durs : Nat → ℚ) (ckpt : Option Nat) (dirE : Bool)
    (disk : String → Option ErrorsDict) (s k : Nat)
    (hs : opt.using_step_function = true) :
    (searchLoop opt cfg durs s k
        (initTrainerState opt ckpt dirE disk)).meters = Meters.init ∧
    (searchLoop opt cfg durs s (k + 1)
        (initTrainerState opt ckpt dirE disk)).errors_dict.train_acc.getLast? =
      some (((opt.stepBatches (s + k)).foldl stepBatch
        Meters.init).train_top1.avg) ∧
    (searchLoop opt cfg durs s (k + 1)
        (initTrainerState opt ckpt dirE disk)).errors_dict.train_loss.getLast? =
      some (((opt.stepBatches (s + k)).foldl stepBatch
        Meters.init).train_loss.avg) ∧
    (searchLoop opt cfg durs s (k + 1)
        (initTrainerState opt ckpt dirE disk)).errors_dict.valid_acc.getLast? =
      some (((opt.stepBatches (s + k)).foldl stepBatch
        Meters.init).val_top1.avg) ∧
    (searchLoop opt cfg durs s (k + 1)
        (initTrainerState opt ckpt dirE disk)).errors_dict.valid_loss.getLast? =
      some (((opt.stepBatches (s + k)).foldl stepBatch
        Meters.init).val_loss.avg) := by
  have hmet : (searchLoop opt cfg durs s k
      (initTrainerState opt ckpt dirE disk)).meters = Meters.init :=
    searchLoop_meters opt cfg durs s k _ (by simp [initTrainerState])
  refine ⟨hmet, ?_, ?_, ?_, ?_⟩
  · rw [searchLoop_concat, searchEpoch_train_acc_step _ _ _ _ _ hs, hmet,
      List.getLast?_concat]
  · rw [searchLoop_concat, searchEpoch_train_loss_step _ _ _ _ _ hs, hmet,
      List.getLast?_concat]
  · rw [searchLoop_concat, searchEpoch_valid_acc_step _ _ _ _ _ hs, hmet,
      List.getLast?_concat]
  · rw [searchLoop_concat, searchEpoch_valid_loss_step _ _ _ _ _ hs, hmet,
      List.getLast?_concat]

/-- C3: checkpoint save/resume round-trips — the periodic checkpointer has
period 1 and writes a checkpoint for every completed epoch; with a non-empty
`resume_from`, `_setup_checkpointers` returns the saved iteration plus one
when a checkpoint exists and 0 otherwise (also 0 for an empty `resume_from`);
a search resumed from the checkpoint left after `m` completed epochs starts at
epoch `m`, skipping exactly the `m` epochs completed before the checkpoint was
written. -/
theorem C3_checkpoint_roundtrip (opt : Optimizer) (cfg : Config)
    (durs durs2 : Nat → ℚ) (dirE dirE2 : Bool)
    (disk disk2 : String → Option ErrorsDict) (ckpt : Option Nat)
    (resume_from : String) (m : Nat) (hs : opt.using_step_function = true)
    (hm : 0 < m) (hr : resume_from ≠ "") :
    periodicCheckpointerPeriod = 1 ∧
    (∀ j, j < m → (searchLoop opt cfg durs 0 (j + 1)
        (initTrainerState opt none dirE disk)).checkpoint = some j) ∧
    Trainer._setup_checkpointers (searchLoop opt cfg durs 0 m
        (initTrainerState opt none dirE disk)).checkpoint resume_from = m ∧
    Trainer._setup_checkpointers none resume_from = 0 ∧
    Trainer._setup_checkpointers ckpt "" = 0 ∧
    (∃ stf, Trainer.search opt cfg durs2 resume_from
        (initTrainerState opt (searchLoop opt cfg durs 0 m
          (initTrainerState opt none dirE disk)).checkpoint dirE2 disk2) =
        Except.ok stf ∧
      stf.newEpochCalls = List.range' m (cfg.search_epochs - m)) := by
  have hck : ∀ j, (searchLoop opt cfg durs 0 (j + 1)
      (initTrainerState opt none dirE disk)).checkpoint = some j := by
    intro j
    rw [searchLoop_checkpoint opt cfg durs 0 j _ hs]
    simp
  obtain ⟨m', rfl⟩ : ∃ m', m = m' + 1 := ⟨m - 1, by omega⟩
  have hsetup : Trainer._setup_checkpointers (searchLoop opt cfg durs 0 (m' + 1)
      (initTrainerState opt none dirE disk)).checkpoint resume_from = m' + 1 := by
    rw [hck m']
    simp [Trainer._setup_checkpointers, hr]
  refine ⟨rfl, fun j _ => hck j, hsetup, ?_, ?_, ?_⟩
  · simp [Trainer._setup_checkpointers, hr]
  · simp [Trainer._setup_checkpointers]
  · refine ⟨_, search_eq_ok opt cfg durs2 resume_from _ dirE2 disk2 hs, ?_⟩
    rw [hsetup, searchLoop_newEpochCalls]
    simp [initTrainerState]

/-- C6: the claim that `Trainer.search` also completes for an optimizer whose
`using_step_function` is false fails on the code — in that case
`self.scheduler` is never assigned, and the unconditional read
`self._setup_checkpointers(resume_from, scheduler=self.scheduler)` raises
`AttributeError` before the epoch loop, so `train_statistics` is never
reached. -/
theorem C6_search_attribute_error (opt : Optimizer) (cfg : Config)
    (durs : Nat → ℚ) (resume_from : String) (ckpt : Option Nat) (dirE : Bool)
    (disk : String → Option ErrorsDict)
    (hs : opt.using_step_function = false) :
    Trainer.search opt cfg durs resume_from
        (initTrainerState opt ckpt dirE disk) =
      Except.error "AttributeError: Trainer object has no attribute scheduler" := by
  simp [Trainer.search, hs, initTrainerState]

/-- C8: `Trainer._store_accuracies` called with a split other than `train` or
`val` raises `ValueError`, and in that case none of the six meters is
updated — the meter state it leaves behind is exactly the input state. -/
theorem C8_store_accuracies_bad_split (m : Meters) (p1 p5 n : ℚ)
    (split : String) (h1 : split ≠ "train") (h2 : split ≠ "val") :
    Trainer._store_accuracies m p1 p5 n split =
      (m, some "ValueError: Unknown split. Expected either train or val") := by
  simp [Trainer._store_accuracies, h1, h2]

/-- C5: the claim that an empty `search_model` resolves to the string path
`<config.save>/search/model_final.pth` fails on the code — the assignment ends
in a trailing comma, so the resolved value (and what `evaluate` passes to the
checkpointer setup) is the one-element tuple holding that path, never a
string. -/
theorem C5_search_model_is_tuple :
    resolveSearchModel
        { save := "run", seed := 0, search_epochs := 2, evaluation_epochs := 1 }
        "" = PyPath.pyTuple1 "run/search/model_final.pth" ∧
    (∀ s, resolveSearchModel
        { save := "run", seed := 0, search_epochs := 2, evaluation_epochs := 1 }
        "" ≠ PyPath.pyStr s) ∧
    (Trainer.evaluate
        { save := "run", seed := 0, search_epochs := 2, evaluation_epochs := 1 }
        true "" false 0 0 []).resumeArg =
      PyPath.pyTuple1 "run/search/model_final.pth" := by
  refine ⟨by simp [resolveSearchModel], ?_, ?_⟩
  · intro s h
    simp [resolveSearchModel] at h
  · simp [Trainer.evaluate, resolveSearchModel]

/-- C4: `Trainer.evaluate` with `retrain=True` on a non-queryable final
architecture resets the weights first (before any retraining step), the
retraining phase consists only of training steps, the architecture is then put
in eval mode and every test batch is processed with gradients disabled, and
the measured test top-1 accuracy is the batch-size-weighted average of the
per-batch top-1 accuracies over all batches of the test queue. -/
theorem C4_evaluate_retrain_test_accuracy (cfg : Config)
    (search_model : String) (start_epoch trainBatches : Nat)
    (testQueue : List EvalBatch) :
    (Trainer.evaluate cfg true search_model false start_epoch trainBatches
        testQueue).events =
      ArchEvent.resetWeights :: ArchEvent.trainMode ::
        (retrainEvents start_epoch cfg.evaluation_epochs trainBatches ++
          ArchEvent.evalMode ::
            (List.range testQueue.length).map
              (fun i => ArchEvent.inference i false)) ∧
    (∀ ev ∈ retrainEvents start_epoch cfg.evaluation_epochs trainBatches,
      ∃ e i, ev = ArchEvent.trainStep e i) ∧
    (∀ i g, ArchEvent.inference i g ∈
        (Trainer.evaluate cfg true search_model false start_epoch trainBatches
          testQueue).events → g = false) ∧
    (Trainer.evaluate cfg true search_model false start_epoch trainBatches
        testQueue).testTop1 =
      some (meterFold EvalBatch.prec1 EvalBatch.n testQueue AverageMeter.init) ∧
    ((Trainer.evaluate cfg true search_model false start_epoch trainBatches
        testQueue).testTop1.map AverageMeter.avg) =
      some ((testQueue.map (fun b => b.prec1 * b.n)).sum /
        (testQueue.map EvalBatch.n).sum) := by
  have hevents : (Trainer.evaluate cfg true search_model false start_epoch
      trainBatches testQueue).events =
      ArchEvent.resetWeights :: ArchEvent.trainMode ::
        (retrainEvents start_epoch cfg.evaluation_epochs trainBatches ++
          ArchEvent.evalMode ::
            (List.range testQueue.length).map
              (fun i => ArchEvent.inference i false)) := by
    simp [Trainer.evaluate]
  have htrain : ∀ ev ∈ retrainEvents start_epoch cfg.evaluation_epochs
      trainBatches, ∃ e i, ev = ArchEvent.trainStep e i := by
    intro ev hev
    simp only [retrainEvents, List.mem_flatMap, List.mem_map] at hev
    obtain ⟨e, _, i, _, rfl⟩ := hev
    exact ⟨e, i, rfl⟩
  have htop1 : (Trainer.evaluate cfg true search_model false start_epoch
      trainBatches testQueue).testTop1 =
      some (meterFold EvalBatch.prec1 EvalBatch.n testQueue AverageMeter.init) := by
    simp [Trainer.evaluate, measureTest_eq_meterFold]
  refine ⟨hevents, htrain, ?_, htop1, ?_⟩
  · intro i g hg
    rw [hevents] at hg
    simp only [List.mem_cons, List.mem_append, List.mem_map] at hg
    rcases hg with h | h | h | h | ⟨i', _, h⟩
    · cases h
    · cases h
    · obtain ⟨e, j, h'⟩ := htrain _ h
      rw [h'] at h
      cases h'
    · cases h
    · cases h
      rfl
  · rw [htop1]
    simp [meterFold_init_avg]

/-- C7: `get_nb_eval` returns one inner list per run in run order whose `j`-th
element is `arch_eval[j][dataset][metric]` of that run; the plotted test error
is `100` minus these accuracies; its per-epoch aggregate across runs is the
arithmetic mean, and the shaded band spans `mean - std` to `mean + std`,
where `std` is nonnegative and squares to the per-epoch population variance
across runs. -/
theorem C7_get_nb_eval_plot (runs : List NbRun) (ds metric : String)
    (i j : Nat) (hi : i < runs.length)
    (hj : j < (runs.get ⟨i, hi⟩).arch_eval.length) :
    (get_nb_eval runs ds metric).length = runs.length ∧
    ((get_nb_eval runs ds metric).getD i []).getD j 0 =
      ((runs.get ⟨i, hi⟩).arch_eval.get ⟨j, hj⟩) ds metric ∧
    ((nb_test_error runs ds).getD i []).getD j 0 =
      100 - ((runs.get ⟨i, hi⟩).arch_eval.get ⟨j, hj⟩) ds "test_accuracy" ∧
    npMeanAxis0 (nb_test_error runs ds) j =
      ((nb_test_error runs ds).map (fun xs => xs.getD j 0)).sum /
        ((runs.length : ℚ)) ∧
    plotBandLow runs ds j =
      (npMeanAxis0 (nb_test_error runs ds) j : ℚ) -
        npStdAxis0 (nb_test_error runs ds) j ∧
    plotBandHigh runs ds j =
      (npMeanAxis0 (nb_test_error runs ds) j : ℚ) +
        npStdAxis0 (nb_test_error runs ds) j ∧
    npStdAxis0 (nb_test_error runs ds) j ^ 2 =
      ((npVarAxis0 (nb_test_error runs ds) j : ℚ) : ℝ) ∧
    0 ≤ npStdAxis0 (nb_test_error runs ds) j := by
  have hlen : (nb_test_error runs ds).length = runs.length := by
    simp [nb_test_error, get_nb_eval_length]
  have hinner : j < ((get_nb_eval runs ds "test_accuracy").getD i []).length := by
    rw [get_nb_eval_getD runs ds "test_accuracy" i hi]
    simpa using hj
  refine ⟨get_nb_eval_length runs ds metric,
    get_nb_eval_entry runs ds metric i j hi hj, ?_, ?_, rfl, rfl,
    npStdAxis0_sq _ j, npStdAxis0_nonneg _ j⟩
  · rw [nb_test_error_getD runs ds i hi,
      ← get_nb_eval_entry runs ds "test_accuracy" i j hi hj]
    generalize (get_nb_eval runs ds "test_accuracy").getD i [] = L at hinner ⊢
    simp [List.getD_eq_getElem?_getD, List.getElem?_map,
      List.getElem?_eq_getElem hinner]
  · rw [npMeanAxis0, hlen]

/-! ### Concrete instances for the witnesses -/

/-- A concrete step-function optimizer. -/
def optStepW : Optimizer :=
  { using_step_function := true
    stepBatches := fun _ => [⟨1, 1, 2, 1, 1, 2, 1, 1⟩]
    train_statistics := fun _ => (0, 0, 0, 0)
    test_statistics := fun _ => none
    model_size := 1 }

/-- A concrete optimizer that does not use a step function. -/
def optNoStepW : Optimizer :=
  { using_step_function := false
    stepBatches := fun _ => []
    train_statistics := fun _ => (1, 2, 3, 4)
    test_statistics := fun _ => none
    model_size := 1 }

/-- A concrete configuration. -/
def cfgW : Config :=
  { save := "run", seed := 0, search_epochs := 2, evaluation_epochs := 1 }

/-- A concrete single-run result list for the analysis script. -/
def runsW : List NbRun :=
  [{ arch_eval := [fun _ _ => 30], valid_acc := [50] }]

/-- Witness for C1 at a concrete step-function optimizer and configuration. -/
theorem C1_search_epoch_coverage_witness :
    optStepW.using_step_function = true ∧
    (∃ stf, Trainer.search optStepW cfgW (fun _ => 0) ""
        (initTrainerState optStepW none false (fun _ => none)) =
        Except.ok stf ∧
      stf.newEpochCalls = List.range'
        (Trainer._setup_checkpointers none "")
        (cfgW.search_epochs - Trainer._setup_checkpointers none "") ∧
      stf.errors_dict.train_acc.length =
        cfgW.search_epochs - Trainer._setup_checkpointers none "" ∧
      stf.errors_dict.train_loss.length =
        cfgW.search_epochs - Trainer._setup_checkpointers none "" ∧
      stf.errors_dict.valid_acc.length =
        cfgW.search_epochs - Trainer._setup_checkpointers none "" ∧
      stf.errors_dict.valid_loss.length =
        cfgW.search_epochs - Trainer._setup_checkpointers none "" ∧
      stf.errors_dict.runtime.length =
        cfgW.search_epochs - Trainer._setup_checkpointers none "") :=
  ⟨by decide, C1_search_epoch_coverage optStepW cfgW (fun _ => 0) "" none false
    (fun _ => none) (by decide)⟩

/-- Witness for C2 after one concrete epoch. -/
theorem C2_log_to_json_per_epoch_witness :
    0 < 1 ∧
    (searchLoop optStepW cfgW (fun _ => 0) 0 1
        (initTrainerState optStepW none false (fun _ => none))).logCalls = 1 ∧
    (searchLoop optStepW cfgW (fun _ => 0) 0 1
        (initTrainerState optStepW none false (fun _ => none))).saveDirExists
        = true ∧
    (searchLoop optStepW cfgW (fun _ => 0) 0 1
        (initTrainerState optStepW none false
          (fun _ => none))).errors_dict.train_acc.length = 1 :=
  ⟨by decide,
   (C2_log_to_json_per_epoch optStepW cfgW (fun _ => 0) none false
     (fun _ => none) 0 1 (by decide)).1,
   (C2_log_to_json_per_epoch optStepW cfgW (fun _ => 0) none false
     (fun _ => none) 0 1 (by decide)).2.1,
   (C2_log_to_json_per_epoch optStepW cfgW (fun _ => 0) none false
     (fun _ => none) 0 1 (by decide)).2.2.2.1⟩

/-- Witness for C3 resuming after one concrete completed epoch. -/
theorem C3_checkpoint_roundtrip_witness :
    optStepW.using_step_function = true ∧ 0 < 1 ∧ "ckpt" ≠ "" ∧
    (periodicCheckpointerPeriod = 1 ∧
    (∀ j, j < 1 → (searchLoop optStepW cfgW (fun _ => 0) 0 (j + 1)
        (initTrainerState optStepW none false (fun _ => none))).checkpoint =
        some j) ∧
    Trainer._setup_checkpointers (searchLoop optStepW cfgW (fun _ => 0) 0 1
        (initTrainerState optStepW none false
          (fun _ => none))).checkpoint "ckpt" = 1 ∧
    Trainer._setup_checkpointers none "ckpt" = 0 ∧
    Trainer._setup_checkpointers (some 5) "" = 0 ∧
    (∃ stf, Trainer.search optStepW cfgW (fun _ => 1) "ckpt"
        (initTrainerState optStepW (searchLoop optStepW cfgW (fun _ => 0) 0 1
          (initTrainerState optStepW none false (fun _ => none))).checkpoint
          false (fun _ => none)) = Except.ok stf ∧
      stf.newEpochCalls = List.range' 1 (cfgW.search_epochs - 1))) :=
  ⟨by decide, by decide, by decide,
   C3_checkpoint_roundtrip optStepW cfgW (fun _ => 0) (fun _ => 1) false false
     (fun _ => none) (fun _ => none) (some 5) "ckpt" 1 (by decide) (by decide)
     (by decide)⟩

/-- Witness for C6 at a concrete optimizer without a step function. -/
theorem C6_search_attribute_error_witness :
    optNoStepW.using_step_function = false ∧
    Trainer.search optNoStepW cfgW (fun _ => 0) ""
        (initTrainerState optNoStepW none false (fun _ => none)) =
      Except.error "AttributeError: Trainer object has no attribute scheduler" :=
  ⟨by decide, C6_search_attribute_error optNoStepW cfgW (fun _ => 0) "" none
    false (fun _ => none) (by decide)⟩

/-- Witness for C8 at the concrete split `test`. -/
theorem C8_store_accuracies_bad_split_witness :
    "test" ≠ "train" ∧ "test" ≠ "val" ∧
    Trainer._store_accuracies Meters.init 1 1 2 "test" =
      (Meters.init,
       some "ValueError: Unknown split. Expected either train or val") :=
  ⟨by decide, by decide,
   C8_store_accuracies_bad_split Meters.init 1 1 2 "test" (by decide)
     (by decide)⟩

/-- Witness for C10 at the first concrete epoch. -/
theorem C10_meters_epoch_local_witness :
    optStepW.using_step_function = true ∧
    (searchLoop optStepW cfgW (fun _ => 0) 0 0
        (initTrainerState optStepW none false (fun _ => none))).meters =
      Meters.init ∧
    (searchLoop optStepW cfgW (fun _ => 0) 0 1
        (initTrainerState optStepW none false
          (fun _ => none))).errors_dict.train_acc.getLast? =
      some (((optStepW.stepBatches 0).foldl stepBatch
        Meters.init).train_top1.avg) :=
  ⟨by decide,
   (C10_meters_epoch_local optStepW cfgW (fun _ => 0) none false
     (fun _ => none) 0 0 (by decide)).1,
   by
     have h := (C10_meters_epoch_local optStepW cfgW (fun _ => 0) none false
       (fun _ => none) 0 0 (by decide)).2.1
     simpa using h⟩

/-- Witness for C7 at a concrete one-run result list. -/
theorem C7_get_nb_eval_plot_witness :
    0 < runsW.length ∧
    (get_nb_eval runsW "cifar10" "test_accuracy").length = runsW.length ∧
    npMeanAxis0 (nb_test_error runsW "cifar10") 0 =
      ((nb_test_error runsW "cifar10").map (fun xs => xs.getD 0 0)).sum /
        ((runsW.length : ℚ)) ∧
    plotBandHigh runsW "cifar10" 0 =
      (npMeanAxis0 (nb_test_error runsW "cifar10") 0 : ℚ) +
        npStdAxis0 (nb_test_error runsW "cifar10") 0 ∧
    npStdAxis0 (nb_test_error runsW "cifar10") 0 ^ 2 =
      ((npVarAxis0 (nb_test_error runsW "cifar10") 0 : ℚ) : ℝ) ∧
    0 ≤ npStdAxis0 (nb_test_error runsW "cifar10") 0 :=
  ⟨by decide,
   (C7_get_nb_eval_plot runsW "cifar10" "test_accuracy" 0 0 (by decide)
     (by decide)).1,
   (C7_get_nb_eval_plot runsW "cifar10" "test_accuracy" 0 0 (by decide)
     (by decide)).2.2.2.1,
   (C7_get_nb_eval_plot runsW "cifar10" "test_accuracy" 0 0 (by decide)
     (by decide)).2.2.2.2.2.1,
   (C7_get_nb_eval_plot runsW "cifar10" "test_accuracy" 0 0 (by decide)
     (by decide)).2.2.2.2.2.2.1,
   (C7_get_nb_eval_plot runsW "cifar10" "test_accuracy" 0 0 (by decide)
     (by decide)).2.2.2.2.2.2.2⟩

end NASLib
